import Mathlib

/-!
Shallow embedding of the self-healing recovery core of the hotel-booking
test framework: the persistent recovery store (`helpers/self_healing.py`,
class `SelfHealing`) and the recovery-aware client session
(`helpers/api_client.py`, class `BookingAPIClient`).

The backing file is modelled by its observable content (`FileState`); the
remote HTTP service is modelled by oracle parameters supplying the
`Response` each network call would return.  Timestamps are modelled as
opaque strings (the store only ever formats and stores them) and the
session clock as a natural number of seconds.
-/

namespace SelfHealing

/-- The ledger record persisted in the backing JSON file (`test_data.json`).
A field is `none` when the corresponding key is absent from the dict.
Mirrors the keys written by `SelfHealing`: `token`, `token_timestamp`,
`booking_ids`, `last_updated`. -/
structure StoreData where
  token : Option String
  token_timestamp : Option String
  booking_ids : Option (List Int)
  last_updated : Option String
deriving DecidableEq, Repr

/-- The empty dict `{}`: no keys present. -/
def emptyData : StoreData := ⟨none, none, none, none⟩

/-- Observable content of the backing file: absent (`os.path.exists` is
false), present but failing JSON decoding (`json.JSONDecodeError`), or a
well-formed ledger dict. -/
inductive FileState
  | absent
  | corrupt
  | valid (d : StoreData)
deriving DecidableEq, Repr

/-- `SelfHealing._load_data`: returns `{}` when the file is absent and when
`json.load` raises `JSONDecodeError`; otherwise the parsed dict. -/
def _load_data : FileState → StoreData
  | .absent => emptyData
  | .corrupt => emptyData
  | .valid d => d

/-- `SelfHealing._save_data`: overwrites the backing file with the dict. -/
def _save_data (d : StoreData) : FileState := .valid d

/-- `SelfHealing.store_token`: load, set `token` and `token_timestamp`,
save. -/
def store_token (fs : FileState) (tok ts : String) : FileState :=
  let d := _load_data fs
  _save_data { d with token := some tok, token_timestamp := some ts }

/-- `SelfHealing.get_token`: `data.get("token")`. -/
def get_token (fs : FileState) : Option String :=
  (_load_data fs).token

/-- `SelfHealing.store_booking_id`: load; default the `booking_ids` key to
`[]` when absent; append the id only when not already present; set
`last_updated`; save. -/
def store_booking_id (fs : FileState) (i : Int) (ts : String) : FileState :=
  let d := _load_data fs
  let ids := d.booking_ids.getD []
  let ids2 := if i ∈ ids then ids else ids ++ [i]
  _save_data { d with booking_ids := some ids2, last_updated := some ts }

/-- `SelfHealing.get_booking_ids`: `data.get("booking_ids", [])`. -/
def get_booking_ids (fs : FileState) : List Int :=
  (_load_data fs).booking_ids.getD []

/-- `SelfHealing.remove_booking_id`: load; only when the `booking_ids` key
is present and contains the id, remove its first occurrence and save;
otherwise nothing is written. -/
def remove_booking_id (fs : FileState) (i : Int) : FileState :=
  let d := _load_data fs
  match d.booking_ids with
  | none => fs
  | some ids =>
    if i ∈ ids then _save_data { d with booking_ids := some (ids.erase i) }
    else fs

/-- `SelfHealing.cleanup_test_data`: loads (the loaded data is inspected but
unused) and saves `{}`, clearing every key. -/
def cleanup_test_data (_fs : FileState) : FileState :=
  _save_data emptyData

/-- Backing-file states at the operating-system level, distinguishing a
file that exists but whose `open`/read raises (e.g. `PermissionError` or
`UnicodeDecodeError`) from content-level corruption.  Only
`json.JSONDecodeError` is caught by `_load_data`, so the OS-level failure
propagates. -/
inductive FileStateOS
  | absent
  | unreadable
  | corrupt
  | valid (d : StoreData)
deriving DecidableEq, Repr

/-- `SelfHealing._load_data` at the OS level: `Except.error` marks an
uncaught exception escaping to the caller.  The file-absent check returns
`{}` before any open; `open` on an unreadable file raises outside the
`try`, which catches only `json.JSONDecodeError`. -/
def _load_data_os : FileStateOS → Except Unit StoreData
  | .absent => .ok emptyData
  | .unreadable => .error ()
  | .corrupt => .ok emptyData
  | .valid d => .ok d

/-- Content-level states embed into OS-level states. -/
def toOS : FileState → FileStateOS
  | .absent => .absent
  | .corrupt => .corrupt
  | .valid d => .valid d

/-- Abstract store operations, for stating the ledger invariant over
arbitrary operation sequences. -/
inductive StoreOp
  | storeToken (t ts : String)
  | storeBookingId (i : Int) (ts : String)
  | removeBookingId (i : Int)
  | clear
deriving DecidableEq, Repr

/-- Run one store operation on the backing file. -/
def applyOp (fs : FileState) : StoreOp → FileState
  | .storeToken t ts => store_token fs t ts
  | .storeBookingId i ts => store_booking_id fs i ts
  | .removeBookingId i => remove_booking_id fs i
  | .clear => cleanup_test_data fs

/-- Run a sequence of store operations. -/
def applyOps (fs : FileState) (ops : List StoreOp) : FileState :=
  ops.foldl applyOp fs

/-- Modelled from the spec: the set of identifiers stored-but-not-removed
since the last full clear (§3 invariant), as a pure set-transformer.  Used
as the abstract side of the refinement claim about `booking_ids`. -/
def specStep (s : Finset Int) : StoreOp → Finset Int
  | .storeToken _ _ => s
  | .storeBookingId i _ => insert i s
  | .removeBookingId i => s.erase i
  | .clear => ∅

/-- The spec-level tracked-id set after a sequence of operations. -/
def specTracked (ops : List StoreOp) : Finset Int :=
  ops.foldl specStep ∅

end SelfHealing

namespace BookingAPIClient

/-- In-memory authentication state of the client session: `self.token` and
`self.token_expiry`. -/
structure Session where
  token : Option String
  token_expiry : Option Nat
deriving DecidableEq, Repr

/-- An HTTP response as the core observes it: the status code and the
`token` / `bookingid` fields of the JSON body (absent fields are `none`). -/
structure Response where
  status : Nat
  token : Option String
  bookingid : Option Int
deriving DecidableEq, Repr

/-- Full client state: the in-memory session plus the backing file of the
persistent store. -/
structure ClientState where
  session : Session
  fs : SelfHealing.FileState
deriving DecidableEq, Repr

/-- `BookingAPIClient._attempt_self_healing`: recover `self.token` from the
store when the stored token is truthy (a non-empty string); the expiry is
never recovered.  The stored booking ids are only counted for logging. -/
def _attempt_self_healing (fs : SelfHealing.FileState) : Session :=
  match SelfHealing.get_token fs with
  | some t => if t = "" then ⟨none, none⟩ else ⟨some t, none⟩
  | none => ⟨none, none⟩

/-- Client construction (`__init__`): fresh in-memory state seeded by
`_attempt_self_healing` over the current backing file. -/
def mkClient (fs : SelfHealing.FileState) : ClientState :=
  ⟨_attempt_self_healing fs, fs⟩

/-- `BookingAPIClient._is_token_valid`: false when `self.token` is falsy
(unset or the empty string) or `self.token_expiry` is unset; otherwise
`datetime.now() < self.token_expiry`. -/
def _is_token_valid (s : Session) (now : Nat) : Bool :=
  match s.token, s.token_expiry with
  | some t, some e => if t = "" then false else decide (now < e)
  | _, _ => false

/-- The fixed local TTL: `timedelta(hours=1)`, in seconds. -/
def oneHour : Nat := 3600

/-- `BookingAPIClient.authenticate`.  `remote` is the response the network
`POST /auth` would return; the final `Bool` records whether that network
call was performed.  When the cached token is valid the synthetic response
`{"token": self.token}` with status 200 is returned without any call.
Otherwise on a 200 reply `self.token` is overwritten with the body's
`token` field, and only when that token is truthy (non-empty) the expiry
is set to now + 1 hour and the token persisted via
`SelfHealing.store_token`. -/
def authenticate (st : ClientState) (now : Nat) (nowStr : String)
    (remote : Response) : ClientState × Response × Bool :=
  if _is_token_valid st.session now then
    (st, ⟨200, st.session.token, none⟩, false)
  else if remote.status = 200 then
    match remote.token with
    | some tok =>
      if tok = "" then
        (⟨⟨some tok, st.session.token_expiry⟩, st.fs⟩, remote, true)
      else
        (⟨⟨some tok, some (now + oneHour)⟩,
          SelfHealing.store_token st.fs tok nowStr⟩, remote, true)
    | none => (⟨⟨none, st.session.token_expiry⟩, st.fs⟩, remote, true)
  else (st, remote, true)

/-- `BookingAPIClient.create_booking`.  `remote` is the response of the
network `POST /booking`.  On status 200 the body's `bookingid` is stored
via `SelfHealing.store_booking_id` only when truthy (nonzero). -/
def create_booking (st : ClientState) (nowStr : String)
    (remote : Response) : ClientState × Response :=
  if remote.status = 200 then
    match remote.bookingid with
    | some i =>
      if i = 0 then (st, remote)
      else (⟨st.session, SelfHealing.store_booking_id st.fs i nowStr⟩, remote)
    | none => (st, remote)
  else (st, remote)

/-- The `if not self._is_token_valid(): self.authenticate()` prelude of the
state-mutating operations. -/
def ensure_auth (st : ClientState) (now : Nat) (nowStr : String)
    (authRemote : Response) : ClientState :=
  if _is_token_valid st.session now then st
  else (authenticate st now nowStr authRemote).1

/-- `BookingAPIClient.delete_booking`: ensure auth validity, perform the
remote delete (`deleteRemote` is its response), and on status 201 remove
the id from the store. -/
def delete_booking (st : ClientState) (i : Int) (now : Nat) (nowStr : String)
    (authRemote : Response) (deleteRemote : Response) :
    ClientState × Response :=
  let st1 := ensure_auth st now nowStr authRemote
  if deleteRemote.status = 201 then
    (⟨st1.session, SelfHealing.remove_booking_id st1.fs i⟩, deleteRemote)
  else (st1, deleteRemote)

/-- One iteration of the cleanup sweep over a tracked id.  The oracle
yields `some resp` when the remote delete returns a response and `none`
when it raises; the raised exception is caught by the sweep's
`try`/`except`, leaving only the auth prelude's effect. -/
def cleanup_step (now : Nat) (nowStr : String) (authRemote : Response)
    (deleteOracle : Int → Option Response) (st : ClientState) (i : Int) :
    ClientState :=
  match deleteOracle i with
  | some resp => (delete_booking st i now nowStr authRemote resp).1
  | none => ensure_auth st now nowStr authRemote

/-- `BookingAPIClient.cleanup_test_data`: snapshot the tracked ids, attempt
a delete for each (failures caught and logged), then call
`SelfHealing.cleanup_test_data`, clearing the store.  Also returns the
list of ids for which a delete was attempted. -/
def cleanup_test_data (st : ClientState) (now : Nat) (nowStr : String)
    (authRemote : Response) (deleteOracle : Int → Option Response) :
    ClientState × List Int :=
  let ids := SelfHealing.get_booking_ids st.fs
  let st1 := ids.foldl (cleanup_step now nowStr authRemote deleteOracle) st
  (⟨st1.session, SelfHealing.cleanup_test_data st1.fs⟩, ids)

end BookingAPIClient

namespace SelfHealing

/-- The tracked-id list after a store is the old list, extended by the id
exactly when it was absent. -/
theorem get_booking_ids_store (fs : FileState) (i : Int) (ts : String) :
    get_booking_ids (store_booking_id fs i ts) =
      if i ∈ get_booking_ids fs then get_booking_ids fs
      else get_booking_ids fs ++ [i] := rfl

/-- A stored id is tracked afterwards. -/
theorem mem_get_booking_ids_store (fs : FileState) (i : Int) (ts : String) :
    i ∈ get_booking_ids (store_booking_id fs i ts) := by
  rw [get_booking_ids_store]
  split
  · assumption
  · simp

/-- The content-level load agrees with the OS-level load on every state the
content model can express. -/
theorem load_data_toOS (fs : FileState) :
    _load_data_os (toOS fs) = Except.ok (_load_data fs) := by
  cases fs <;> rfl

/-- C4 counterexample: a backing file that exists but cannot be read (e.g.
permission denied) makes `_load_data` raise — only `json.JSONDecodeError`
is caught — so "load() never raises" fails at this file state. -/
theorem load_data_unreadable_counterexample :
    _load_data_os FileStateOS.unreadable = Except.error () := rfl

/-- C4 (amended): load returns the empty ledger, without raising, when the
file is absent and when its content fails JSON decoding, and returns the
parsed ledger on well-formed content; an OS-level read failure (unreadable
file) propagates as an error rather than degrading to an empty ledger. -/
theorem load_data_degrades_on_absent_or_corrupt :
    _load_data_os FileStateOS.absent = Except.ok emptyData ∧
    _load_data_os FileStateOS.corrupt = Except.ok emptyData ∧
    (∀ d, _load_data_os (FileStateOS.valid d) = Except.ok d) ∧
    _load_data_os FileStateOS.unreadable = Except.error () :=
  ⟨rfl, rfl, fun _ => rfl, rfl⟩

/-- C6: storing a token and reading it back returns that token, for every
prior store state; after a full clear of the store, the stored token reads
back as none. -/
theorem token_round_trip_and_clear (fs fs2 : FileState) (t ts : String) :
    get_token (store_token fs t ts) = some t ∧
    get_token (cleanup_test_data fs2) = none :=
  ⟨rfl, rfl⟩

/-- C7: removing an id that is not currently tracked leaves the entire
store state (file content, hence token, timestamps and ids) unchanged, and
does not fail. -/
theorem remove_booking_id_absent_noop (fs : FileState) (i : Int)
    (h : i ∉ get_booking_ids fs) : remove_booking_id fs i = fs := by
  cases hb : (_load_data fs).booking_ids with
  | none => simp [remove_booking_id, hb]
  | some ids =>
    have hi : i ∉ ids := by simpa [get_booking_ids, hb] using h
    simp [remove_booking_id, hb, hi]

/-- C7 witness: removing id 3 from a store tracking nothing is a no-op. -/
theorem remove_booking_id_absent_noop_witness :
    remove_booking_id (FileState.valid emptyData) 3 =
      FileState.valid emptyData :=
  remove_booking_id_absent_noop (FileState.valid emptyData) 3 (by decide)

end SelfHealing

namespace BookingAPIClient

/-- C1: the cleanup sweep attempts a remote delete for exactly the tracked
ids (in order), for every outcome of those attempts — including raised
exceptions, which are caught and do not abort the sweep — and afterwards
the store is unconditionally cleared: no booking ids and no token remain. -/
theorem cleanup_sweep_attempts_all_and_clears (st : ClientState) (now : Nat)
    (nowStr : String) (authRemote : Response)
    (deleteOracle : Int → Option Response) :
    (cleanup_test_data st now nowStr authRemote deleteOracle).2 =
      SelfHealing.get_booking_ids st.fs ∧
    SelfHealing.get_booking_ids
      (cleanup_test_data st now nowStr authRemote deleteOracle).1.fs = [] ∧
    SelfHealing.get_token
      (cleanup_test_data st now nowStr authRemote deleteOracle).1.fs = none :=
  ⟨rfl, rfl, rfl⟩

end BookingAPIClient

namespace SelfHealing

/-- C5: for every store state whose tracked collection holds the id at most
once (`booking_ids` is a set per the data model), storing the id twice
leaves the collection containing it exactly once; and storing an id
already present changes the collection not at all. -/
theorem store_booking_id_idempotent (fs : FileState) (i : Int)
    (ts1 ts2 : String) :
    ((get_booking_ids fs).count i ≤ 1 →
      (get_booking_ids
        (store_booking_id (store_booking_id fs i ts1) i ts2)).count i = 1) ∧
    (i ∈ get_booking_ids fs →
      get_booking_ids (store_booking_id fs i ts1) = get_booking_ids fs) := by
  constructor
  · intro hle
    by_cases hi : i ∈ get_booking_ids fs
    · have h1 : get_booking_ids (store_booking_id fs i ts1) =
          get_booking_ids fs := by
        rw [get_booking_ids_store, if_pos hi]
      rw [get_booking_ids_store, h1, if_pos hi]
      have := List.count_pos_iff.mpr hi
      omega
    · have h1 : get_booking_ids (store_booking_id fs i ts1) =
          get_booking_ids fs ++ [i] := by
        rw [get_booking_ids_store, if_neg hi]
      have hmem : i ∈ get_booking_ids fs ++ [i] := by simp
      rw [get_booking_ids_store, h1, if_pos hmem, List.count_append]
      have h0 : (get_booking_ids fs).count i = 0 := List.count_eq_zero.mpr hi
      simp [h0]
  · intro hi
    rw [get_booking_ids_store, if_pos hi]

/-- C5 witness: with the store tracking exactly [7], double-storing 7 keeps
one occurrence, and single-storing 7 leaves the tracked list unchanged. -/
theorem store_booking_id_idempotent_witness :
    (get_booking_ids
      (store_booking_id
        (store_booking_id (FileState.valid ⟨none, none, some [7], none⟩) 7 "a")
        7 "b")).count 7 = 1 ∧
    get_booking_ids
      (store_booking_id (FileState.valid ⟨none, none, some [7], none⟩) 7 "a") =
      get_booking_ids (FileState.valid ⟨none, none, some [7], none⟩) :=
  ⟨(store_booking_id_idempotent (FileState.valid ⟨none, none, some [7], none⟩)
      7 "a" "b").1 (by decide),
   (store_booking_id_idempotent (FileState.valid ⟨none, none, some [7], none⟩)
      7 "a" "b").2 (by decide)⟩

end SelfHealing

namespace BookingAPIClient

/-- C2 counterexample: a session whose in-memory token is set to the empty
string, with an expiry set and in the future, does not short-circuit: the
code's truthiness check rejects the empty token, so authenticate() performs
the network call and returns the remote failure response, not a synthetic
200. -/
theorem authenticate_empty_token_counterexample :
    (authenticate ⟨⟨some "", some 10⟩, SelfHealing.FileState.absent⟩ 0 "ts"
      ⟨403, none, none⟩).2.2 = true ∧
    (authenticate ⟨⟨some "", some 10⟩, SelfHealing.FileState.absent⟩ 0 "ts"
      ⟨403, none, none⟩).2.1.status = 403 := by
  constructor <;> rfl

/-- C2 (amended): for every session whose in-memory token is set to a
non-empty string and whose in-memory expiry is set and still in the
future, authenticate() performs no network call and returns a synthetic
status-200 response carrying exactly the cached token, leaving the whole
client state unchanged. -/
theorem authenticate_cached_short_circuit (st : ClientState) (now : Nat)
    (nowStr : String) (remote : Response) (t : String) (e : Nat)
    (htok : st.session.token = some t) (hne : t ≠ "")
    (hexp : st.session.token_expiry = some e) (hlt : now < e) :
    authenticate st now nowStr remote = (st, ⟨200, some t, none⟩, false) := by
  have hv : _is_token_valid st.session now = true := by
    simp [_is_token_valid, htok, hexp, hne, hlt]
  simp [authenticate, hv, htok]

/-- C2 witness: a session caching token "abc" with expiry 100 at time 0
short-circuits even when the remote would answer 500. -/
theorem authenticate_cached_short_circuit_witness :
    authenticate ⟨⟨some "abc", some 100⟩, SelfHealing.FileState.absent⟩ 0 "ts"
      ⟨500, none, none⟩ =
      (⟨⟨some "abc", some 100⟩, SelfHealing.FileState.absent⟩,
        ⟨200, some "abc", none⟩, false) :=
  authenticate_cached_short_circuit
    ⟨⟨some "abc", some 100⟩, SelfHealing.FileState.absent⟩ 0 "ts"
    ⟨500, none, none⟩ "abc" 100 rfl (by decide) rfl (by decide)

/-- C3 counterexample: a create that returns status 200 with body
bookingid 0 records nothing — the code's truthiness check drops id 0 — so
the store does not contain that id afterwards. -/
theorem create_booking_zero_id_counterexample :
    create_booking
      ⟨⟨none, none⟩, SelfHealing.FileState.valid SelfHealing.emptyData⟩ "ts"
      ⟨200, none, some 0⟩ =
      (⟨⟨none, none⟩, SelfHealing.FileState.valid SelfHealing.emptyData⟩,
        ⟨200, none, some 0⟩) ∧
    SelfHealing.get_booking_ids
      (create_booking
        ⟨⟨none, none⟩, SelfHealing.FileState.valid SelfHealing.emptyData⟩ "ts"
        ⟨200, none, some 0⟩).1.fs = [] := by
  constructor <;> rfl

/-- C3 (amended): when the remote create returns status 200 with a nonzero
bookingid in the body, create_booking records that id in the persistent
store — the updated store is exactly a `store_booking_id` write and the
tracked ids contain the id; on any non-200 status the client state,
store included, is left unchanged. -/
theorem create_booking_tracks_nonzero_id (st : ClientState) (nowStr : String)
    (remote : Response) (i : Int) :
    (remote.status = 200 → remote.bookingid = some i → i ≠ 0 →
      (create_booking st nowStr remote).1.fs =
        SelfHealing.store_booking_id st.fs i nowStr ∧
      i ∈ SelfHealing.get_booking_ids (create_booking st nowStr remote).1.fs) ∧
    (remote.status ≠ 200 → create_booking st nowStr remote = (st, remote)) := by
  constructor
  · intro h200 hid hne
    have he : (create_booking st nowStr remote).1.fs =
        SelfHealing.store_booking_id st.fs i nowStr := by
      simp [create_booking, h200, hid, hne]
    refine ⟨he, ?_⟩
    rw [he]
    exact SelfHealing.mem_get_booking_ids_store st.fs i nowStr
  · intro h200
    simp [create_booking, h200]

/-- C3 witness: a 200 create with bookingid 55 ends tracked; a 404 create
leaves the client state unchanged. -/
theorem create_booking_tracks_nonzero_id_witness :
    (55 : Int) ∈ SelfHealing.get_booking_ids
      (create_booking ⟨⟨none, none⟩, SelfHealing.FileState.absent⟩ "ts"
        ⟨200, none, some 55⟩).1.fs ∧
    create_booking ⟨⟨none, none⟩, SelfHealing.FileState.absent⟩ "ts"
      ⟨404, none, some 55⟩ =
      (⟨⟨none, none⟩, SelfHealing.FileState.absent⟩, ⟨404, none, some 55⟩) :=
  ⟨((create_booking_tracks_nonzero_id
      ⟨⟨none, none⟩, SelfHealing.FileState.absent⟩ "ts" ⟨200, none, some 55⟩
      55).1 rfl rfl (by decide)).2,
   (create_booking_tracks_nonzero_id
      ⟨⟨none, none⟩, SelfHealing.FileState.absent⟩ "ts" ⟨404, none, some 55⟩
      55).2 (by decide)⟩

end BookingAPIClient

namespace BookingAPIClient

/-- C8 counterexample: an authenticate() call that performs the remote call
and receives status 200 with no token field in the body sets no expiry and
persists nothing to the store, against the claim that every remote 200
sets expiry = now + 1 hour and persists the token. -/
theorem authenticate_success_no_token_counterexample :
    (authenticate (mkClient SelfHealing.FileState.absent) 5 "ts"
      ⟨200, none, none⟩).1.session.token_expiry = none ∧
    (authenticate (mkClient SelfHealing.FileState.absent) 5 "ts"
      ⟨200, none, none⟩).1.fs = SelfHealing.FileState.absent := by
  constructor <;> rfl

/-- C8 (amended): when authenticate() performs the remote call (the cached
token is not valid) and receives status 200 carrying a non-empty token,
the session sets its expiry to now + 1 hour, adopts the token, and
persists it via a store write (so the store then yields that token); on
any non-200 response it performs no bookkeeping mutation and returns the
failure response unmodified. -/
theorem authenticate_remote_bookkeeping (st : ClientState) (now : Nat)
    (nowStr : String) (remote : Response)
    (hv : _is_token_valid st.session now = false) :
    (∀ tok, remote.status = 200 → remote.token = some tok → tok ≠ "" →
      authenticate st now nowStr remote =
        (⟨⟨some tok, some (now + oneHour)⟩,
          SelfHealing.store_token st.fs tok nowStr⟩, remote, true) ∧
      SelfHealing.get_token
        (authenticate st now nowStr remote).1.fs = some tok) ∧
    (remote.status ≠ 200 →
      authenticate st now nowStr remote = (st, remote, true)) := by
  constructor
  · intro tok h200 htok hne
    have he : authenticate st now nowStr remote =
        (⟨⟨some tok, some (now + oneHour)⟩,
          SelfHealing.store_token st.fs tok nowStr⟩, remote, true) := by
      simp [authenticate, hv, h200, htok, hne]
    refine ⟨he, ?_⟩
    rw [he]
    rfl
  · intro h200
    simp [authenticate, hv, h200]

/-- C8 witness: from a fresh client over no backing file, a 200 reply
carrying token "tok" at time 5 sets expiry 5 + 1h and persists the token;
a 404 reply mutates nothing. -/
theorem authenticate_remote_bookkeeping_witness :
    authenticate (mkClient SelfHealing.FileState.absent) 5 "ts"
      ⟨200, some "tok", none⟩ =
      (⟨⟨some "tok", some (5 + oneHour)⟩,
        SelfHealing.store_token SelfHealing.FileState.absent "tok" "ts"⟩,
        ⟨200, some "tok", none⟩, true) ∧
    authenticate (mkClient SelfHealing.FileState.absent) 5 "ts"
      ⟨404, none, none⟩ =
      (mkClient SelfHealing.FileState.absent, ⟨404, none, none⟩, true) :=
  ⟨((authenticate_remote_bookkeeping (mkClient SelfHealing.FileState.absent)
      5 "ts" ⟨200, some "tok", none⟩ (by decide)).1 "tok" rfl rfl
      (by decide)).1,
   (authenticate_remote_bookkeeping (mkClient SelfHealing.FileState.absent)
      5 "ts" ⟨404, none, none⟩ (by decide)).2 (by decide)⟩

/-- When the cached token is not valid, authenticate() performs the
network call, whatever the remote would answer. -/
theorem authenticate_network_of_invalid (st : ClientState) (now : Nat)
    (nowStr : String) (remote : Response)
    (hv : _is_token_valid st.session now = false) :
    (authenticate st now nowStr remote).2.2 = true := by
  rcases remote with ⟨s, tk, bid⟩
  by_cases h200 : s = 200
  · cases tk with
    | none => simp [authenticate, hv, h200]
    | some tok => by_cases he : tok = "" <;> simp [authenticate, hv, h200, he]
  · simp [authenticate, hv, h200]

/-- C10: construction-time recovery seeds only the in-memory token and
never the in-memory expiry, so for every backing file the recovered
session fails the validity check and the first authenticate() of the new
process performs the remote network call instead of short-circuiting. -/
theorem recovered_token_never_short_circuits (fs : SelfHealing.FileState)
    (now : Nat) (nowStr : String) (remote : Response) :
    (mkClient fs).session.token_expiry = none ∧
    _is_token_valid (mkClient fs).session now = false ∧
    (authenticate (mkClient fs) now nowStr remote).2.2 = true := by
  have hshape : ∃ tk, (mkClient fs).session = ⟨tk, none⟩ := by
    rcases h : SelfHealing.get_token fs with _ | t
    · exact ⟨none, by simp [mkClient, _attempt_self_healing, h]⟩
    · by_cases ht : t = ""
      · exact ⟨none, by simp [mkClient, _attempt_self_healing, h, ht]⟩
      · exact ⟨some t, by simp [mkClient, _attempt_self_healing, h, ht]⟩
  obtain ⟨tk, hs⟩ := hshape
  have hexp : (mkClient fs).session.token_expiry = none := by rw [hs]
  have hv : _is_token_valid (mkClient fs).session now = false := by
    rw [hs]
    cases tk <;> rfl
  exact ⟨hexp, hv, authenticate_network_of_invalid (mkClient fs) now nowStr
    remote hv⟩

end BookingAPIClient

namespace SelfHealing

/-- One store operation preserves duplicate-freedom of the persisted id
list and keeps its members in lockstep with the spec-level tracked set. -/
theorem step_preserves (fs : FileState) (s : Finset Int) (op : StoreOp)
    (hnd : (get_booking_ids fs).Nodup)
    (hmem : ∀ j : Int, j ∈ get_booking_ids fs ↔ j ∈ s) :
    (get_booking_ids (applyOp fs op)).Nodup ∧
    ∀ j : Int, j ∈ get_booking_ids (applyOp fs op) ↔ j ∈ specStep s op := by
  cases op with
  | storeToken t ts => exact ⟨hnd, hmem⟩
  | storeBookingId i ts =>
    simp only [applyOp, specStep]
    rw [get_booking_ids_store]
    by_cases hi : i ∈ get_booking_ids fs
    · rw [if_pos hi]
      refine ⟨hnd, fun j => ?_⟩
      rw [hmem j, Finset.mem_insert]
      constructor
      · intro hj
        exact Or.inr hj
      · intro hj
        rcases hj with hj | hj
        · subst hj
          exact (hmem j).mp hi
        · exact hj
    · rw [if_neg hi]
      constructor
      · rw [List.nodup_append]
        refine ⟨hnd, List.nodup_singleton i, ?_⟩
        intro a ha hb
        rw [List.mem_singleton] at hb
        subst hb
        exact hi ha
      · intro j
        rw [List.mem_append, List.mem_singleton, hmem j, Finset.mem_insert]
        tauto
  | removeBookingId i =>
    simp only [applyOp, specStep]
    rcases hb : (_load_data fs).booking_ids with _ | ids
    · have hid : remove_booking_id fs i = fs := by
        simp [remove_booking_id, hb]
      have hempty : get_booking_ids fs = [] := by
        simp [get_booking_ids, hb]
      rw [hid, hempty]
      rw [hempty] at hmem
      refine ⟨List.nodup_nil, fun j => ?_⟩
      constructor
      · intro hj
        exact absurd hj (List.not_mem_nil j)
      · intro hj
        exact absurd ((hmem j).mpr (Finset.mem_of_mem_erase hj))
          (List.not_mem_nil j)
    · have hids : get_booking_ids fs = ids := by
        simp [get_booking_ids, hb]
      rw [hids] at hnd hmem
      by_cases hi : i ∈ ids
      · have hr : get_booking_ids (remove_booking_id fs i) = ids.erase i := by
          simp only [remove_booking_id, hb]
          rw [if_pos hi]
          rfl
        rw [hr]
        refine ⟨hnd.erase i, fun j => ?_⟩
        rw [hnd.mem_erase_iff, Finset.mem_erase, hmem j]
      · have hr : remove_booking_id fs i = fs := by
          simp [remove_booking_id, hb, hi]
        rw [hr, hids]
        refine ⟨hnd, fun j => ?_⟩
        rw [hmem j, Finset.mem_erase]
        constructor
        · intro hj
          refine ⟨fun hji => ?_, hj⟩
          subst hji
          exact hi ((hmem j).mpr hj)
        · exact And.right
  | clear =>
    simp only [applyOp, specStep]
    refine ⟨List.nodup_nil, fun j => ?_⟩
    constructor
    · intro hj
      exact absurd hj (List.not_mem_nil j)
    · intro hj
      exact absurd hj (Finset.not_mem_empty j)

/-- A sequence of store operations preserves duplicate-freedom and the
correspondence with the spec-level tracked set. -/
theorem applyOps_preserves (ops : List StoreOp) (fs : FileState)
    (s : Finset Int) (hnd : (get_booking_ids fs).Nodup)
    (hmem : ∀ j : Int, j ∈ get_booking_ids fs ↔ j ∈ s) :
    (get_booking_ids (applyOps fs ops)).Nodup ∧
    ∀ j : Int, j ∈ get_booking_ids (applyOps fs ops) ↔
      j ∈ ops.foldl specStep s := by
  induction ops generalizing fs s with
  | nil => exact ⟨hnd, hmem⟩
  | cons op rest ih =>
    obtain ⟨h1, h2⟩ := step_preserves fs s op hnd hmem
    exact ih (applyOp fs op) (specStep s op) h1 h2

/-- C9: starting from an empty ledger (no backing file yet), after every
sequence of store operations the persisted booking_ids collection is
duplicate-free — each id occurs at most once — and its members are exactly
the ids stored-but-not-removed since the last full clear, as computed by
the spec-level set model. -/
theorem booking_ids_nodup_refines_spec (ops : List StoreOp) :
    (get_booking_ids (applyOps FileState.absent ops)).Nodup ∧
    ∀ j : Int, j ∈ get_booking_ids (applyOps FileState.absent ops) ↔
      j ∈ specTracked ops := by
  refine applyOps_preserves ops FileState.absent ∅ List.nodup_nil fun j => ?_
  constructor
  · intro hj
    exact absurd hj (List.not_mem_nil j)
  · intro hj
    exact absurd hj (Finset.not_mem_empty j)

end SelfHealing
